import Mathlib

/-!
Verification of the per-session agent runtime of this repository against its
natural-language specification.  The definitions below are shallow embeddings
of the TypeScript source:

* the conversation store of `BaseProjectAgent`
  (`getConversationState`, `setConversationState`, `addConversationMessage`,
  `clearConversation` in `src/worker/agents/core/baseProjectAgent.ts`),
* the cancellation controller (`cancelCurrentInference`,
  `getOrCreateAbortController`),
* the deep-debug handle (`executeDeepDebug`),
* the `generate_all` control-frame handling (`handleWebSocketMessage` in
  `src/worker/agents/core/websocket.ts` together with
  `AgenticCodingAgent.generateAllFiles`),
* the workflow metadata merge (`AgenticCodingAgent.mergeMetadata`),
* the workflow scaffold provider (`generateWorkflowScaffold`),
* the Cloudflare deployment entry point
  (`AgenticCodingAgent.deployToCloudflare`),
* state cloning (`cloneAgent`).

JavaScript objects used as string-keyed records are embedded as association
lists (`List (String × α)`), which preserves both key lookup and the
`Object.entries` iteration order that the source relies on.
-/

namespace VibeSdk

/-! ## Conversation store

`ConversationMessage` per `inferutils/common`: `{conversationId, role,
content, ...}`; deduplication and upserts key on `conversationId` only, so the
remaining payload is carried as plain strings. -/

structure ConversationMessage where
  conversationId : String
  role : String
  content : String
deriving DecidableEq, Repr

/-- The conversation-relevant slice of a `BaseProjectAgent`:
the two per-session SQLite tables (row for the default conversation id;
`none` models a missing, empty or unparsable row, since
`getConversationState` treats all three the same) and the in-memory compact
log `state.conversationMessages`. -/
structure ConvAgent where
  fullConversations : Option (List ConversationMessage)
  compactConversations : Option (List ConversationMessage)
  conversationMessages : List ConversationMessage
deriving DecidableEq, Repr

/-- The `deduplicateMessages` closure of `getConversationState`: keep the
first occurrence of each `conversationId` (the `seen` set). -/
def deduplicateMessagesGo (seen : List String) :
    List ConversationMessage → List ConversationMessage
  | [] => []
  | msg :: rest =>
    if msg.conversationId ∈ seen then
      deduplicateMessagesGo seen rest
    else
      msg :: deduplicateMessagesGo (msg.conversationId :: seen) rest

def deduplicateMessages (messages : List ConversationMessage) :
    List ConversationMessage :=
  deduplicateMessagesGo [] messages

/-- Result shape of `getConversationState` (`ConversationState` in
`inferutils/common`). -/
structure ConversationState where
  id : String
  runningHistory : List ConversationMessage
  fullHistory : List ConversationMessage
deriving DecidableEq, Repr

/-- `BaseProjectAgent.getConversationState` (baseProjectAgent.ts:124-174):
read the full log from `full_conversations` and the compact (running) log
from `compact_conversations`, each falling back to the in-memory compact log
when the stored list is absent or empty, then deduplicate both by
`conversationId`. -/
def getConversationState (a : ConvAgent) : ConversationState :=
  let currentConversation := a.conversationMessages
  let fullHistory := (a.fullConversations.getD [])
  let fullHistory := if fullHistory.isEmpty then currentConversation else fullHistory
  let runningHistory := (a.compactConversations.getD [])
  let runningHistory := if runningHistory.isEmpty then currentConversation else runningHistory
  { id := "default"
    runningHistory := deduplicateMessages runningHistory
    fullHistory := deduplicateMessages fullHistory }

/-- `BaseProjectAgent.setConversationState`: persist both histories into
their tables (success path; persistence failures are logged, not thrown). -/
def setConversationState (a : ConvAgent) (conversations : ConversationState) :
    ConvAgent :=
  { a with
    compactConversations := some conversations.runningHistory
    fullConversations := some conversations.fullHistory }

/-- The upsert step of `addConversationMessage`: if `find` locates no entry
carrying the message's `conversationId`, push the message at the end;
otherwise map over the log replacing every entry with that id by the new
message. -/
def upsertMessage (message : ConversationMessage)
    (log : List ConversationMessage) : List ConversationMessage :=
  match log.find? (fun msg => msg.conversationId = message.conversationId) with
  | none => log ++ [message]
  | some _ =>
    log.map (fun msg =>
      if msg.conversationId = message.conversationId then message else msg)

/-- `BaseProjectAgent.addConversationMessage` (baseProjectAgent.ts:188-211):
read the deduplicated state, upsert into both histories, persist. -/
def addConversationMessage (a : ConvAgent) (message : ConversationMessage) :
    ConvAgent :=
  let conversationState := getConversationState a
  let conversationState :=
    { conversationState with
      runningHistory := upsertMessage message conversationState.runningHistory
      fullHistory := upsertMessage message conversationState.fullHistory }
  setConversationState a conversationState

/-- `BaseProjectAgent.clearConversation` (baseProjectAgent.ts:918-932):
clears only the agent's in-memory compact log `state.conversationMessages`
(and broadcasts `conversation_cleared` with the cleared count); the two
SQLite tables are not touched. -/
def clearConversation (a : ConvAgent) : ConvAgent × Nat :=
  ({ a with conversationMessages := [] }, a.conversationMessages.length)

def msgIds (log : List ConversationMessage) : List String :=
  log.map (fun msg => msg.conversationId)

/-! ## Cancellation controller

`BaseProjectAgent.currentAbortController` is the single reusable cancellation
token.  Controllers carry an identity so that the list of controllers whose
`abort()` was invoked by a call can be observed. -/

structure AbortController where
  id : Nat
  aborted : Bool
deriving DecidableEq, Repr

structure CancellationAgent where
  currentAbortController : Option AbortController
  nextControllerId : Nat
deriving DecidableEq, Repr

/-- `BaseProjectAgent.getOrCreateAbortController`
(baseProjectAgent.ts:593-603): return the current controller unless it is
aborted, otherwise allocate a fresh one and store it. -/
def getOrCreateAbortController (a : CancellationAgent) :
    CancellationAgent × AbortController :=
  match a.currentAbortController with
  | some controller =>
    if ¬ controller.aborted then
      (a, controller)
    else
      let fresh : AbortController := ⟨a.nextControllerId, false⟩
      ({ a with currentAbortController := some fresh
                nextControllerId := a.nextControllerId + 1 }, fresh)
  | none =>
    let fresh : AbortController := ⟨a.nextControllerId, false⟩
    ({ a with currentAbortController := some fresh
              nextControllerId := a.nextControllerId + 1 }, fresh)

/-- `BaseProjectAgent.cancelCurrentInference` (baseProjectAgent.ts:609-617):
if a controller is present, abort it, discard it and report `true`;
otherwise report `false`.  The second component is the report, the third the
list of controllers aborted by this call. -/
def cancelCurrentInference (a : CancellationAgent) :
    CancellationAgent × Bool × List AbortController :=
  match a.currentAbortController with
  | some controller =>
    ({ a with currentAbortController := none }, true,
      [{ controller with aborted := true }])
  | none => (a, false, [])

/-! ## Deep-debug handle

`BaseProjectAgent.executeDeepDebug` (baseProjectAgent.ts:1038-1088).  The
async closure is invoked immediately, so the debugging loop (fetch runtime
errors, build the filtered files index, run `DeepCodeDebugger`) starts right
away; the promise is then stored in the single `deepDebugPromise` slot and
awaited.  Loop bodies are abstracted to their promise identities: each
started loop is recorded, and the returned value is the identity of the
promise the call awaits. -/

structure DeepDebugAgent where
  deepDebugPromise : Option Nat
  deepDebugConversationId : Option String
  lastDeepDebugTranscript : Option String
  nextPromiseId : Nat
  startedLoops : List Nat
deriving DecidableEq, Repr

/-- Synchronous prefix of `executeDeepDebug`: unconditionally start a new
debugging loop (there is no check of `deepDebugPromise` in the source),
store its promise in the slot, and await that promise. -/
def executeDeepDebug (a : DeepDebugAgent) : DeepDebugAgent × Nat :=
  let promiseId := a.nextPromiseId
  ({ a with
      deepDebugPromise := some promiseId
      nextPromiseId := promiseId + 1
      startedLoops := a.startedLoops ++ [promiseId] },
    promiseId)

/-- Continuation of the debug promise: on success persist the transcript; in
either case the `finally` clears the promise slot and the conversation id. -/
def completeDeepDebug (a : DeepDebugAgent) (outcome : Except String String) :
    DeepDebugAgent :=
  let a :=
    match outcome with
    | .ok transcript => { a with lastDeepDebugTranscript := some transcript }
    | .error _ => a
  { a with deepDebugPromise := none, deepDebugConversationId := none }

/-- `BaseProjectAgent.isDeepDebugging` (baseProjectAgent.ts:576-578). -/
def isDeepDebugging (a : DeepDebugAgent) : Bool :=
  a.deepDebugPromise ≠ none

/-! ## `generate_all` control-frame handling

The `GENERATE_ALL` case of `handleWebSocketMessage`
(src/worker/agents/core/websocket.ts:26-48) composed with
`AgenticCodingAgent.generateAllFiles` (the workflow controller's generate
entry point).  `generationPromise` abstracts whether the in-memory
generation promise is non-null; the boolean result reports whether a new
generation run was started by the call. -/

structure GenAgent where
  shouldBeGenerating : Bool
  generationPromise : Bool
  workflowMetadataPresent : Bool
  pendingUserInputsCount : Nat
deriving DecidableEq, Repr

/-- `AgenticCodingAgent.generateAllFiles`: return early when generation has
already completed (metadata present, no pending user inputs) or when a
generation is already in flight; otherwise start the generation run. -/
def generateAllFiles (a : GenAgent) : GenAgent × Bool :=
  if a.workflowMetadataPresent ∧ a.pendingUserInputsCount = 0 then
    (a, false)
  else if a.generationPromise then
    (a, false)
  else
    ({ a with generationPromise := true }, true)

/-- The `GENERATE_ALL` branch of `handleWebSocketMessage`: always set
`shouldBeGenerating`, then skip if a generation is already active, else call
the generate entry point. -/
def handleGenerateAll (a : GenAgent) : GenAgent × Bool :=
  let a := { a with shouldBeGenerating := true }
  if a.generationPromise then
    (a, false)
  else
    generateAllFiles a

/-- The `.finally` attached to the generation run by the `GENERATE_ALL`
branch, evaluated at whatever agent state holds when the run settles:
`if (!agent.isCodeGenerating()) agent.updateState({shouldBeGenerating: false})`. -/
def generationRunFinally (a : GenAgent) : GenAgent :=
  if ¬ a.generationPromise then { a with shouldBeGenerating := false } else a

/-! ## Session state and cloning

`CodeGenState` from `src/worker/agents/core/state.ts` (the app variant,
which carries `currentDevState`).  Structured payloads whose internals the
clone never inspects (`Blueprint`, `PhaseConceptType`, `InferenceContext`)
are embedded with just enough shape to be carried around. -/

inductive CurrentDevState where
  | IDLE
  | PHASE_GENERATING
  | PHASE_IMPLEMENTING
  | REVIEWING
  | FINALIZING
deriving DecidableEq, Repr

inductive AgentMode where
  | deterministic
  | smart
deriving DecidableEq, Repr

structure InferenceContext where
  userId : String
  agentId : String
deriving DecidableEq, Repr

structure FileState where
  filePath : String
  fileContents : String
  filePurpose : String
  lastDiff : String
deriving DecidableEq, Repr

structure PhaseState where
  phaseName : String
  completed : Bool
deriving DecidableEq, Repr

/-- Opaque structured project plan; cloning copies it wholesale. -/
structure Blueprint where
  payload : String
deriving DecidableEq, Repr

structure CodeGenState where
  projectName : String
  query : String
  sessionId : String
  hostname : String
  templateName : String
  conversationMessages : List ConversationMessage
  inferenceContext : InferenceContext
  shouldBeGenerating : Bool
  agentMode : AgentMode
  generatedFilesMap : List (String × FileState)
  sandboxInstanceId : Option String
  commandsHistory : Option (List String)
  lastPackageJson : Option String
  pendingUserInputs : List String
  projectUpdatesAccumulator : List String
  lastDeepDebugTranscript : Option String
  blueprint : Blueprint
  generatedPhases : List PhaseState
  mvpGenerated : Bool
  reviewingInitiated : Bool
  phasesCounter : Nat
  currentDevState : CurrentDevState
  reviewCycles : Option Nat
  currentPhase : Option String
deriving DecidableEq, Repr

/-- The state constructed by `cloneAgent` (agents/index, lines 32-55): spread
the original state and override `sessionId` (with the freshly generated
agent id), `sandboxInstanceId`, `pendingUserInputs`, `currentDevState`
(enum value 0 = IDLE) and `shouldBeGenerating`.  The source also writes
`generationPromise: undefined` and `clientReportedErrors: []`, neither of
which is a field of any declared state type, so they have no effect on the
typed state. -/
def cloneAgentState (originalState : CodeGenState) (newAgentId : String) :
    CodeGenState :=
  { originalState with
    sessionId := newAgentId
    sandboxInstanceId := none
    pendingUserInputs := []
    currentDevState := CurrentDevState.IDLE
    shouldBeGenerating := false }

/-! ## String-keyed records

JavaScript object operations used by the metadata and scaffold code. -/

/-- First-match key lookup in an association list (JS property read; the
lists we build keep keys unique). -/
def lookupKey (entries : List (String × α)) (key : String) : Option α :=
  (entries.find? (fun kv => kv.1 = key)).map (fun kv => kv.2)

/-- Value override applied to the keys of the first spread operand. -/
def overrideWith (b : List (String × α)) (kv : String × α) : String × α :=
  match lookupKey b kv.1 with
  | some v => (kv.1, v)
  | none => kv

/-- JS object spread `{...a, ...b}`: keys of `a` in their order with values
overridden by `b` where both are present, followed by the keys only in `b`,
in `b`'s order. -/
def objSpread (a b : List (String × α)) : List (String × α) :=
  a.map (overrideWith b) ++ b.filter (fun kv => (lookupKey a kv.1).isNone)

/-- JS property assignment `obj[k] = v`: overwrite in place when the key
exists, else append. -/
def objSet (entries : List (String × α)) (key : String) (v : α) :
    List (String × α) :=
  if (lookupKey entries key).isNone then
    entries ++ [(key, v)]
  else
    entries.map (fun kv => if kv.1 = key then (key, v) else kv)

/-! ## Workflow metadata

`WorkflowMetadata` from `src/worker/agents/core/state.ts` (workflow
variant).  `example` values are untyped JSON in the source, embedded here by
the `Json` type below; configs keep the fields the generators read. -/

/-- Untyped JSON values (parameter examples; serialized scaffold files). -/
inductive Json where
  | null
  | bool (b : Bool)
  | num (n : Int)
  | str (s : String)
  | arr (elems : List Json)
  | obj (fields : List (String × Json))

inductive ParamType where
  | string
  | number
  | boolean
  | object
deriving DecidableEq, Repr

def ParamType.render : ParamType → String
  | .string => "string"
  | .number => "number"
  | .boolean => "boolean"
  | .object => "object"

structure ParamConfig where
  type : ParamType
  description : String
  exampleVal : Option Json
  required : Bool

structure EnvVarConfig where
  description : String
  defaultVal : Option String
  required : Option Bool
deriving DecidableEq, Repr

structure SecretConfig where
  description : String
  required : Option Bool
deriving DecidableEq, Repr

inductive ResourceKind where
  | kv
  | r2
  | d1
  | queue
  | ai
deriving DecidableEq, Repr

structure ResourceConfig where
  type : ResourceKind
  description : String
  required : Option Bool
deriving DecidableEq, Repr

structure WorkflowBindings where
  envVars : Option (List (String × EnvVarConfig))
  secrets : Option (List (String × SecretConfig))
  resources : Option (List (String × ResourceConfig))

structure WorkflowMetadata where
  name : String
  description : String
  params : List (String × ParamConfig)
  bindings : Option WorkflowBindings

/-- `AgenticCodingAgent.mergeMetadata`: scalar fields take the update's
values; `params` is the spread merge of both; when the update carries a
`bindings` object each bindings map is the spread merge of the (possibly
absent) existing map with the (possibly absent) updated map, and otherwise
the existing bindings are kept as they are. -/
def mergeMetadata (existing updates : WorkflowMetadata) : WorkflowMetadata :=
  { name := updates.name
    description := updates.description
    params := objSpread existing.params updates.params
    bindings :=
      match updates.bindings with
      | some updatedBindings =>
        some
          { envVars := some (objSpread
              ((existing.bindings.bind (fun b => b.envVars)).getD [])
              (updatedBindings.envVars.getD []))
            secrets := some (objSpread
              ((existing.bindings.bind (fun b => b.secrets)).getD [])
              (updatedBindings.secrets.getD []))
            resources := some (objSpread
              ((existing.bindings.bind (fun b => b.resources)).getD [])
              (updatedBindings.resources.getD [])) }
      | none => existing.bindings }

/-- `AgenticCodingAgent.configureMetadata` (the state write of the
`configure_workflow_metadata` tool): merge with the existing record when one
is present, else take the update as-is. -/
def configureMetadata (existing : Option WorkflowMetadata)
    (metadata : WorkflowMetadata) : WorkflowMetadata :=
  match existing with
  | some existingMetadata => mergeMetadata existingMetadata metadata
  | none => metadata

/-- Effective env-var entries of an optional bindings object (an absent map
spreads as empty). -/
def envVarEntries (bindings : Option WorkflowBindings) :
    List (String × EnvVarConfig) :=
  (bindings.bind (fun b => b.envVars)).getD []

def secretEntries (bindings : Option WorkflowBindings) :
    List (String × SecretConfig) :=
  (bindings.bind (fun b => b.secrets)).getD []

def resourceEntries (bindings : Option WorkflowBindings) :
    List (String × ResourceConfig) :=
  (bindings.bind (fun b => b.resources)).getD []

/-! ## JSON serialization

`JSON.stringify(value, null, 2)` as used by `generateWorkflowScaffold` for
`package.json`, `wrangler.jsonc` and `tsconfig.json`, and by the README
generator for the example parameters. -/

def jsonIndent (n : Nat) : String :=
  String.mk (List.replicate n ' ')

def jsonEscapeChar (c : Char) : String :=
  if c = '\"' then "\\\""
  else if c = '\\' then "\\\\"
  else if c = '\n' then "\\n"
  else if c = '\t' then "\\t"
  else if c = '\r' then "\\r"
  else String.mk [c]

def jsonQuote (s : String) : String :=
  "\"" ++ String.join (s.toList.map jsonEscapeChar) ++ "\""

mutual

def jsonRender : Json → Nat → String
  | .null, _ => "null"
  | .bool b, _ => if b then "true" else "false"
  | .num n, _ => toString n
  | .str s, _ => jsonQuote s
  | .arr elems, ind =>
    if elems.isEmpty then "[]"
    else
      "[\n" ++ String.intercalate ",\n" (jsonRenderArr elems (ind + 2)) ++
        "\n" ++ jsonIndent ind ++ "]"
  | .obj fields, ind =>
    if fields.isEmpty then "\x7b\x7d"
    else
      "\x7b\n" ++ String.intercalate ",\n" (jsonRenderObj fields (ind + 2)) ++
        "\n" ++ jsonIndent ind ++ "\x7d"

def jsonRenderArr : List Json → Nat → List String
  | [], _ => []
  | elem :: rest, ind =>
    (jsonIndent ind ++ jsonRender elem ind) :: jsonRenderArr rest ind

def jsonRenderObj : List (String × Json) → Nat → List String
  | [], _ => []
  | field :: rest, ind =>
    (jsonIndent ind ++ jsonQuote field.1 ++ ": " ++ jsonRender field.2 ind)
      :: jsonRenderObj rest ind

end

def jsonStringify (j : Json) : String :=
  jsonRender j 0

/-! ## Wrangler configuration

The `wranglerConfig` object built by `generateWorkflowScaffold`
(utils/workflowScaffold lines 34-109), as a structured record.  JS inserts
the optional sections in first-assignment order; the record abstracts that
property order (the serializer below emits them in the fixed kind order
`vars`, `kv_namespaces`, `r2_buckets`, `d1_databases`, `queues`, `ai`) while
preserving the contents and in-section entry order exactly. -/

structure WranglerWorkflowEntry where
  name : String
  binding : String
  class_name : String
deriving DecidableEq, Repr

structure KvNamespace where
  binding : String
  id : String
deriving DecidableEq, Repr

structure R2Bucket where
  binding : String
  bucket_name : String
deriving DecidableEq, Repr

structure D1Database where
  binding : String
  database_name : String
  database_id : String
deriving DecidableEq, Repr

structure QueueProducer where
  binding : String
  queue : String
deriving DecidableEq, Repr

structure AiBinding where
  binding : String
deriving DecidableEq, Repr

structure WranglerConfig where
  name : String
  main : String
  compatibility_date : String
  observability_enabled : Bool
  head_sampling_rate : Int
  workflows : List WranglerWorkflowEntry
  vars : List (String × String)
  kv_namespaces : List KvNamespace
  r2_buckets : List R2Bucket
  d1_databases : List D1Database
  queues_producers : List QueueProducer
  ai : Option AiBinding
deriving DecidableEq, Repr

/-- `name.toLowerCase().replace(/_/g, '-')`, applied to resource names when
deriving local ids. -/
def sanitizeResourceName (name : String) : String :=
  (name.toLower).replace "_" "-"

/-- One iteration of the `for (const [name, config] of
Object.entries(metadata.bindings.resources))` loop: push an entry into the
section selected by the resource kind; for `ai` overwrite the single `ai`
binding. -/
def addResourceBinding (cfg : WranglerConfig) (name : String)
    (config : ResourceConfig) : WranglerConfig :=
  match config.type with
  | .kv =>
    { cfg with kv_namespaces := cfg.kv_namespaces ++
        [{ binding := name, id := "local-kv-" ++ sanitizeResourceName name }] }
  | .r2 =>
    { cfg with r2_buckets := cfg.r2_buckets ++
        [{ binding := name,
           bucket_name := "local-r2-" ++ sanitizeResourceName name }] }
  | .d1 =>
    { cfg with d1_databases := cfg.d1_databases ++
        [{ binding := name,
           database_name := "local-d1-" ++ sanitizeResourceName name,
           database_id := "local-d1-" ++ sanitizeResourceName name }] }
  | .queue =>
    { cfg with queues_producers := cfg.queues_producers ++
        [{ binding := name,
           queue := "local-queue-" ++ sanitizeResourceName name }] }
  | .ai =>
    { cfg with ai := some { binding := name } }

/-- The complete `wranglerConfig` for the given scaffold inputs: the fixed
header plus, when metadata bindings are present, the `vars` map (env-var
defaults, then empty strings for secrets) and the per-kind resource
sections. -/
def buildWranglerConfig (workflowName workflowClassName : String)
    (metadata : Option WorkflowMetadata) : WranglerConfig :=
  let base : WranglerConfig :=
    { name := workflowName
      main := "src/index.ts"
      compatibility_date := "2025-10-08"
      observability_enabled := true
      head_sampling_rate := 1
      workflows := [{ name := workflowName, binding := "MY_WORKFLOW",
                      class_name := workflowClassName }]
      vars := []
      kv_namespaces := []
      r2_buckets := []
      d1_databases := []
      queues_producers := []
      ai := none }
  match metadata.bind (fun m => m.bindings) with
  | none => base
  | some bindings =>
    let vars := (bindings.envVars.getD []).foldl
      (fun vars kv => objSet vars kv.1 (kv.2.defaultVal.getD "")) []
    let vars := (bindings.secrets.getD []).foldl
      (fun vars kv => objSet vars kv.1 "") vars
    let cfg := { base with vars := vars }
    (bindings.resources.getD []).foldl
      (fun cfg kv => addResourceBinding cfg kv.1 kv.2) cfg

/-- Serialization of the wrangler config (see the property-order note on
`WranglerConfig`): optional sections appear only when non-empty, matching
the conditional pushes in the source. -/
def wranglerToJson (cfg : WranglerConfig) : Json :=
  .obj (
    [("name", .str cfg.name),
     ("main", .str cfg.main),
     ("compatibility_date", .str cfg.compatibility_date),
     ("observability", .obj
        [("enabled", .bool cfg.observability_enabled),
         ("head_sampling_rate", .num cfg.head_sampling_rate)]),
     ("workflows", .arr (cfg.workflows.map (fun w =>
        .obj [("name", .str w.name), ("binding", .str w.binding),
              ("class_name", .str w.class_name)])))]
    ++ (if cfg.vars.isEmpty then [] else
         [("vars", .obj (cfg.vars.map (fun kv => (kv.1, .str kv.2))))])
    ++ (if cfg.kv_namespaces.isEmpty then [] else
         [("kv_namespaces", .arr (cfg.kv_namespaces.map (fun e =>
            .obj [("binding", .str e.binding), ("id", .str e.id)])))])
    ++ (if cfg.r2_buckets.isEmpty then [] else
         [("r2_buckets", .arr (cfg.r2_buckets.map (fun e =>
            .obj [("binding", .str e.binding),
                  ("bucket_name", .str e.bucket_name)])))])
    ++ (if cfg.d1_databases.isEmpty then [] else
         [("d1_databases", .arr (cfg.d1_databases.map (fun e =>
            .obj [("binding", .str e.binding),
                  ("database_name", .str e.database_name),
                  ("database_id", .str e.database_id)])))])
    ++ (if cfg.queues_producers.isEmpty then [] else
         [("queues", .obj [("producers", .arr (cfg.queues_producers.map (fun e =>
            .obj [("binding", .str e.binding), ("queue", .str e.queue)])))])])
    ++ (match cfg.ai with
        | some a => [("ai", .obj [("binding", .str a.binding)])]
        | none => []))

/-! ## Scaffold files -/

def packageDevDependencies : List (String × String) :=
  [("@cloudflare/workers-types", "^4.20250417.0"),
   ("typescript", "^5.0.4"),
   ("wrangler", "^4.38.0")]

def packageJsonFor (workflowName : String) : Json :=
  .obj
    [("name", .str workflowName),
     ("version", .str "1.0.0"),
     ("private", .bool true),
     ("scripts", .obj
        [("dev", .str "wrangler dev --local"),
         ("deploy", .str "wrangler deploy")]),
     ("devDependencies", .obj
        (packageDevDependencies.map (fun kv => (kv.1, .str kv.2))))]

def tsConfigJson : Json :=
  .obj
    [("compilerOptions", .obj
        [("target", .str "ES2021"),
         ("lib", .arr [.str "ES2021"]),
         ("module", .str "ESNext"),
         ("moduleResolution", .str "bundler"),
         ("types", .arr [.str "@cloudflare/workers-types/experimental"]),
         ("resolveJsonModule", .bool true),
         ("isolatedModules", .bool true),
         ("strict", .bool true),
         ("skipLibCheck", .bool true)]),
     ("exclude", .arr [.str "node_modules", .str "dist", .str ".wrangler"])]

/-- `generateIndexWithWorkflow`: the fixed HTTP-handler template around the
supplied workflow code. -/
def generateIndexWithWorkflow (workflowCode : String) : String :=
  "import \x7b WorkflowEntrypoint, WorkflowEvent, WorkflowStep \x7d from \x27cloudflare:workers\x27;\n\n"
  ++ workflowCode ++
  "\n\nexport default \x7b\n  async fetch(request: Request, env: Env): Promise<Response> \x7b\n    const url = new URL(request.url);\n\n    if (url.pathname === \x27/trigger\x27 && request.method === \x27POST\x27) \x7b\n      try \x7b\n        const \x7b params \x7d = await request.json() as \x7b params: any \x7d;\n        \n        if (!params) \x7b\n          return Response.json(\x7b error: \x27params is required\x27 \x7d, \x7b status: 400 \x7d);\n        \x7d\n\n        const instance = await env.MY_WORKFLOW.create(\x7b params \x7d);\n        const status = await instance.status();\n        \n        return Response.json(\x7b\n          success: true,\n          instanceId: instance.id,\n          status: status\n        \x7d);\n      \x7d catch (error) \x7b\n        console.error(\x27Error triggering workflow:\x27, error);\n        return Response.json(\x7b\n          error: error instanceof Error ? error.message : \x27Failed to trigger workflow\x27\n        \x7d, \x7b status: 500 \x7d);\n      \x7d\n    \x7d\n\n    if (url.pathname.startsWith(\x27/instance/\x27) && request.method === \x27GET\x27) \x7b\n      try \x7b\n        const instanceId = url.pathname.split(\x27/instance/\x27)[1];\n        \n        if (!instanceId) \x7b\n          return Response.json(\x7b error: \x27Instance ID is required\x27 \x7d, \x7b status: 400 \x7d);\n        \x7d\n\n        const instance = await env.MY_WORKFLOW.get(instanceId);\n        const status = await instance.status();\n        \n        return Response.json(\x7b\n          success: true,\n          instanceId: instance.id,\n          status: status\n        \x7d);\n      \x7d catch (error) \x7b\n        console.error(\x27Error getting workflow status:\x27, error);\n        return Response.json(\x7b\n          error: error instanceof Error ? error.message : \x27Failed to get workflow status\x27\n        \x7d, \x7b status: 500 \x7d);\n      \x7d\n    \x7d\n\n    if (url.pathname === \x27/health\x27) \x7b\n      return Response.json(\x7b status: \x27ok\x27 \x7d);\n    \x7d\n\n    return new Response(\x27Workflow API\\n\\nPOST /trigger - Start workflow\\nGET /instance/:id - Get status\\nGET /health - Health check\x27, \x7b\n      headers: \x7b \x27Content-Type\x27: \x27text/plain\x27 \x7d\n    \x7d);\n  \x7d\n\x7d satisfies ExportedHandler<Env>;\n"

/-- `generateIndexStub`: the default workflow plus handler emitted when no
workflow code has been generated yet. -/
def generateIndexStub (workflowClassName : String) : String :=
  "import \x7b WorkflowEntrypoint, WorkflowEvent, WorkflowStep \x7d from \x27cloudflare:workers\x27;\n\ntype Params = \x7b\n  // Define your workflow parameters here\n\x7d;\n\nexport class "
  ++ workflowClassName ++
  " extends WorkflowEntrypoint<Env, Params> \x7b\n  async run(event: WorkflowEvent<Params>, step: WorkflowStep) \x7b\n    const result = await step.do(\x27Example step\x27, async () => \x7b\n      return \x7b message: \x27Hello from workflow!\x27 \x7d;\n    \x7d);\n    \n    return result;\n  \x7d\n\x7d\n\nexport default \x7b\n  async fetch(request: Request, env: Env): Promise<Response> \x7b\n    const url = new URL(request.url);\n\n    if (url.pathname === \x27/trigger\x27 && request.method === \x27POST\x27) \x7b\n      try \x7b\n        const \x7b params \x7d = await request.json() as \x7b params: any \x7d;\n        const instance = await env.MY_WORKFLOW.create(\x7b params: params || \x7b\x7d \x7d);\n        const status = await instance.status();\n        \n        return Response.json(\x7b\n          success: true,\n          instanceId: instance.id,\n          status: status\n        \x7d);\n      \x7d catch (error) \x7b\n        return Response.json(\x7b\n          error: error instanceof Error ? error.message : \x27Failed to trigger workflow\x27\n        \x7d, \x7b status: 500 \x7d);\n      \x7d\n    \x7d\n\n    if (url.pathname.startsWith(\x27/instance/\x27) && request.method === \x27GET\x27) \x7b\n      try \x7b\n        const instanceId = url.pathname.split(\x27/instance/\x27)[1];\n        const instance = await env.MY_WORKFLOW.get(instanceId);\n        const status = await instance.status();\n        \n        return Response.json(\x7b\n          success: true,\n          instanceId: instance.id,\n          status: status\n        \x7d);\n      \x7d catch (error) \x7b\n        return Response.json(\x7b\n          error: error instanceof Error ? error.message : \x27Failed to get status\x27\n        \x7d, \x7b status: 500 \x7d);\n      \x7d\n    \x7d\n\n    return new Response(\x27Workflow API\x27, \x7b headers: \x7b \x27Content-Type\x27: \x27text/plain\x27 \x7d \x7d);\n  \x7d\n\x7d satisfies ExportedHandler<Env>;\n"

/-! ## README generation (`generateWorkflowReadme`) -/

/-- The example value for one parameter: the declared example when present,
else a placeholder by declared type. -/
def paramExampleValue (config : ParamConfig) : Json :=
  match config.exampleVal with
  | some e => e
  | none =>
    match config.type with
    | .string => .str "example value"
    | .number => .num 0
    | .boolean => .bool true
    | .object => .obj []

def paramsExample (params : List (String × ParamConfig)) :
    List (String × Json) :=
  params.map (fun kv => (kv.1, paramExampleValue kv.2))

def resourceKindUpper : ResourceKind → String
  | .kv => "KV"
  | .r2 => "R2"
  | .d1 => "D1"
  | .queue => "QUEUE"
  | .ai => "AI"

/-- One line of the parameter table. -/
def paramLine (key : String) (config : ParamConfig) : String :=
  "- `" ++ key ++ "` (" ++ config.type.render ++ "): " ++ config.description
    ++ (if config.required then " **Required**" else "")

def secretLine (key : String) (config : SecretConfig) : String :=
  "- `" ++ key ++ "`: " ++ config.description
    ++ (match config.required with
        | some true => " (required)"
        | _ => "") ++ "\n"

/-- `config.default` is tested for JS truthiness: an absent or empty default
produces no suffix. -/
def envVarLine (key : String) (config : EnvVarConfig) : String :=
  "- `" ++ key ++ "`: " ++ config.description
    ++ (match config.defaultVal with
        | some d => if d = "" then "" else " (default: " ++ d ++ ")"
        | none => "") ++ "\n"

def resourceLine (key : String) (config : ResourceConfig) : String :=
  "- `" ++ key ++ "` (" ++ resourceKindUpper config.type ++ "): "
    ++ config.description ++ "\n"

/-- The `bindingsSection` accumulator of `generateWorkflowReadme`: secrets,
then environment variables, then resources, each section only when its map
is present and non-empty. -/
def readmeBindingsSection (bindings : Option WorkflowBindings) : String :=
  match bindings with
  | none => ""
  | some b =>
    let s := "\n## Required Bindings\n\n"
    let s :=
      if (b.secrets.getD []).isEmpty then s
      else s ++ "### Secrets\n\n"
        ++ String.join ((b.secrets.getD []).map (fun kv => secretLine kv.1 kv.2))
        ++ "\n"
    let s :=
      if (b.envVars.getD []).isEmpty then s
      else s ++ "### Environment Variables\n\n"
        ++ String.join ((b.envVars.getD []).map (fun kv => envVarLine kv.1 kv.2))
        ++ "\n"
    if (b.resources.getD []).isEmpty then s
    else s ++ "### Resources\n\n"
      ++ String.join ((b.resources.getD []).map (fun kv => resourceLine kv.1 kv.2))
      ++ "\n"

/-- `generateWorkflowReadme`: the fixed README when no metadata exists, else
the metadata-derived document (title, description, parameter table,
bindings section, development/testing/deployment snippets with the example
trigger payload re-indented by two spaces). -/
def generateWorkflowReadme (metadata : Option WorkflowMetadata) : String :=
  match metadata with
  | none =>
    "# Workflow Project\n\nThis is a Cloudflare Workflow project.\n\n## Development\n\n```bash\nnpm install\nnpm run dev\n```\n\n## Testing\n\nTrigger the workflow:\n\n```bash\ncurl -X POST http://localhost:8787/trigger \\\n  -H \"Content-Type: application/json\" \\\n  -d \x27\x7b\"params\": \x7b\x7d\x7d\x27\n```\n\nCheck workflow status:\n\n```bash\ncurl http://localhost:8787/instance/<instance-id>\n```\n\n## Deployment\n\n```bash\nnpm run deploy\n```\n"
  | some metadata =>
    let exampleBody :=
      (jsonStringify (.obj [("params", .obj (paramsExample metadata.params))])).replace
        "\n" "\n  "
    "# " ++ metadata.name
      ++ "\n\n" ++ metadata.description
      ++ "\n\n## Parameters\n\n"
      ++ String.intercalate "\n"
          (metadata.params.map (fun kv => paramLine kv.1 kv.2))
      ++ "\n" ++ readmeBindingsSection metadata.bindings
      ++ "\n## Development\n\n```bash\nnpm install\nnpm run dev\n```\n\n## Testing\n\nTrigger the workflow:\n\n```bash\ncurl -X POST http://localhost:8787/trigger \\\n  -H \"Content-Type: application/json\" \\\n  -d \x27"
      ++ exampleBody
      ++ "\x27\n```\n\nCheck workflow status:\n\n```bash\ncurl http://localhost:8787/instance/<instance-id>\n```\n\n## Deployment\n\n```bash\nnpm run deploy\n```\n"

/-! ## The scaffold provider (`generateWorkflowScaffold`) -/

inductive FileTreeNode where
  | file (path : String)
  | directory (path : String) (children : List FileTreeNode)

structure TemplateDescription where
  selection : String
  usage : String

structure TemplateDetails where
  name : String
  description : TemplateDescription
  fileTree : FileTreeNode
  allFiles : List (String × String)
  deps : List (String × String)
  importantFiles : List String
  dontTouchFiles : List String
  redactedFiles : List String

structure WorkflowScaffoldOptions where
  workflowName : String
  workflowClassName : String
  workflowCode : Option String
  metadata : Option WorkflowMetadata

def scaffoldFileTree : FileTreeNode :=
  .directory "/"
    [.directory "/src" [.file "/src/index.ts"],
     .file "/package.json",
     .file "/wrangler.jsonc",
     .file "/tsconfig.json",
     .file "/README.md"]

/-- `generateWorkflowScaffold` (utils/workflowScaffold lines 16-165).
`workflowCode` and `metadata?.description` are tested for JS truthiness, so
an empty workflow code selects the stub and an empty description selects
the fallback usage text. -/
def generateWorkflowScaffold (options : WorkflowScaffoldOptions) :
    TemplateDetails :=
  let wranglerConfig := buildWranglerConfig options.workflowName
    options.workflowClassName options.metadata
  let indexTs :=
    match options.workflowCode with
    | some code =>
      if code = "" then generateIndexStub options.workflowClassName
      else generateIndexWithWorkflow code
    | none => generateIndexStub options.workflowClassName
  let readme := generateWorkflowReadme options.metadata
  { name := options.workflowName
    description :=
      { selection := "Cloudflare Workflow"
        usage :=
          match options.metadata with
          | some m =>
            if m.description = "" then
              "AI-generated workflow for automated processes"
            else m.description
          | none => "AI-generated workflow for automated processes" }
    fileTree := scaffoldFileTree
    allFiles :=
      [("package.json", jsonStringify (packageJsonFor options.workflowName)),
       ("wrangler.jsonc", jsonStringify (wranglerToJson wranglerConfig)),
       ("tsconfig.json", jsonStringify tsConfigJson),
       ("src/index.ts", indexTs),
       ("README.md", readme)]
    deps := packageDevDependencies
    importantFiles := ["src/index.ts", "wrangler.jsonc"]
    dontTouchFiles := ["package.json", "tsconfig.json"]
    redactedFiles := [] }

/-! ## Cloudflare deployment (`AgenticCodingAgent.deployToCloudflare`)

The workflow agent's `deploy` handling.  The WebSocket `DEPLOY` case simply
invokes `deployToCloudflare()` and logs the result, so the events observable
by the client are exactly the broadcasts performed inside this method.  The
`DeploymentManager.deployToCloudflare` call is an external collaborator; its
behavior at this call site is supplied as an oracle: either it throws, or it
returns a result with an optional deployment URL, and the lifecycle events
it fires through the `onStarted`/`onCompleted`/`onError`/`onPreviewExpired`
callbacks are supplied as the broadcast list it produces. -/

inductive DeploymentStatus where
  | idle
  | deploying
  | deployed
  | failed
deriving DecidableEq, Repr

structure WorkflowDeployState where
  deploymentUrl : Option String
  deploymentStatus : DeploymentStatus
  deploymentError : Option String
deriving DecidableEq, Repr

structure CloudflareCredentials where
  accountId : String
  apiToken : String
deriving DecidableEq, Repr

/-- Events broadcast to the session's client channels during deployment. -/
inductive DeployEvent where
  | cloudflareDeploymentStarted (message : String)
  | cloudflareDeploymentCompleted (message : String)
  | cloudflareDeploymentError (message : String) (error : String)
  | errorEvent (error : String)
deriving DecidableEq, Repr

/-- Oracle for the `deploymentManager.deployToCloudflare` call. -/
inductive ManagerOutcome where
  | ok (deploymentUrl : Option String) (deploymentId : Option String)
  | thrown (message : String)
deriving DecidableEq, Repr

structure CloudflareDeployResult where
  deploymentUrl : String
  workersUrl : String
deriving DecidableEq, Repr

/-- The literal used when no credentials are stored. -/
def missingCredentialsMsg : String :=
  "Cloudflare account credentials not configured. Please add them in Settings → Secrets."

/-- `AgenticCodingAgent.deployToCloudflare`: set `deploying`; read the
user's credentials; when absent record the failure in state and throw (the
method's own catch re-records the failure and returns null — nothing is
broadcast on this path); otherwise run the deployment manager, propagate
its lifecycle broadcasts, and record the outcome.  Returns the updated
state, the broadcasts in order, and the method's return value. -/
def deployToCloudflare (s : WorkflowDeployState)
    (credentials : Option CloudflareCredentials)
    (manager : ManagerOutcome) (managerEvents : List DeployEvent) :
    WorkflowDeployState × List DeployEvent × Option CloudflareDeployResult :=
  let s := { s with deploymentStatus := .deploying, deploymentError := none }
  match credentials with
  | none =>
    -- setState failed inside the try, then `throw new Error(errorMsg)` is
    -- caught by the method's own catch which records the same failure again
    let s := { s with deploymentStatus := .failed,
                      deploymentError := some missingCredentialsMsg }
    let s := { s with deploymentStatus := .failed,
                      deploymentError := some missingCredentialsMsg }
    (s, [], none)
  | some _ =>
    match manager with
    | .thrown message =>
      let s := { s with deploymentStatus := .failed,
                        deploymentError := some message }
      (s, managerEvents, none)
    | .ok none _ =>
      let s := { s with deploymentStatus := .failed,
                        deploymentError := some "Deployment failed - no URL returned" }
      (s, managerEvents, none)
    | .ok (some url) _ =>
      let s := { s with deploymentUrl := some url,
                        deploymentStatus := .deployed,
                        deploymentError := none }
      (s, managerEvents, some { deploymentUrl := url, workersUrl := url })

/-- The claim's expectation for C3, as a predicate on a deployment run: a
`cloudflare_deployment_error` event naming the missing credentials is
broadcast, and the final state is failed with an error recorded. -/
def deployErrorBroadcastAsClaimed (events : List DeployEvent)
    (s : WorkflowDeployState) : Prop :=
  (∃ message error, DeployEvent.cloudflareDeploymentError message error ∈ events
      ∧ (message.splitOn "credentials").length > 1)
    ∧ s.deploymentStatus = .failed
    ∧ s.deploymentError ≠ none

/-! # Conversation-store lemmas -/

/-- The replacement function applied by the upsert's map branch. -/
def replaceById (message : ConversationMessage) (msg : ConversationMessage) :
    ConversationMessage :=
  if msg.conversationId = message.conversationId then message else msg

theorem replaceById_conversationId (message msg : ConversationMessage) :
    (replaceById message msg).conversationId = msg.conversationId := by
  unfold replaceById
  by_cases h : msg.conversationId = message.conversationId <;> simp [h]

theorem replaceById_replaceById (message msg : ConversationMessage) :
    replaceById message (replaceById message msg) = replaceById message msg := by
  unfold replaceById
  by_cases h : msg.conversationId = message.conversationId <;> simp [h]

theorem upsertMessage_eq (message : ConversationMessage)
    (log : List ConversationMessage) :
    upsertMessage message log =
      match log.find? (fun msg => msg.conversationId = message.conversationId) with
      | none => log ++ [message]
      | some _ => log.map (replaceById message) := rfl

theorem upsertMessage_ne_nil (message : ConversationMessage)
    (log : List ConversationMessage) : upsertMessage message log ≠ [] := by
  rw [upsertMessage_eq]
  cases h : log.find? (fun msg => msg.conversationId = message.conversationId) with
  | none => simp
  | some w =>
    have : log ≠ [] := by
      intro hc
      subst hc
      simp at h
    intro hc
    rw [List.map_eq_nil_iff] at hc
    exact this hc

theorem deduplicateMessagesGo_ids_nodup (l : List ConversationMessage)
    (seen : List String) :
    (msgIds (deduplicateMessagesGo seen l)).Nodup
      ∧ ∀ i ∈ msgIds (deduplicateMessagesGo seen l), i ∉ seen := by
  induction l generalizing seen with
  | nil => simp [deduplicateMessagesGo, msgIds]
  | cons m rest ih =>
    by_cases h : m.conversationId ∈ seen
    · simpa [deduplicateMessagesGo, h] using ih seen
    · have ihm := ih (m.conversationId :: seen)
      simp only [deduplicateMessagesGo, if_neg h, msgIds, List.map_cons,
        List.nodup_cons, List.mem_cons, List.mem_map] at ihm ⊢
      refine ⟨⟨?_, ihm.1⟩, ?_⟩
      · intro hmem
        have := ihm.2 m.conversationId (by simpa [msgIds, List.mem_map] using hmem)
        simp at this
      · rintro i (hi | hi)
        · subst hi; exact h
        · have := ihm.2 i (by simpa [msgIds, List.mem_map] using hi)
          intro hc
          exact this (Or.inr hc)

theorem deduplicateMessagesGo_eq_self (l : List ConversationMessage) :
    ∀ seen : List String, (msgIds l).Nodup →
      (∀ i ∈ msgIds l, i ∉ seen) → deduplicateMessagesGo seen l = l := by
  induction l with
  | nil => intro seen _ _; simp [deduplicateMessagesGo]
  | cons m rest ih =>
    intro seen hnodup hdisj
    have hm : m.conversationId ∉ seen := hdisj _ (by simp [msgIds])
    simp only [deduplicateMessagesGo, if_neg hm, List.cons.injEq, true_and]
    simp only [msgIds, List.map_cons, List.nodup_cons] at hnodup
    apply ih (m.conversationId :: seen) hnodup.2
    intro i hi
    simp only [List.mem_cons]
    rintro (hc | hc)
    · subst hc
      exact hnodup.1 (by simpa [msgIds] using hi)
    · exact hdisj i (by
        simp only [msgIds, List.map_cons, List.mem_cons]
        exact Or.inr (by simpa [msgIds] using hi)) hc

theorem deduplicateMessages_eq_self (l : List ConversationMessage)
    (hnodup : (msgIds l).Nodup) : deduplicateMessages l = l :=
  deduplicateMessagesGo_eq_self l [] hnodup (by simp)

theorem find?_replaceById (message : ConversationMessage)
    (log : List ConversationMessage) :
    (log.map (replaceById message)).find?
        (fun msg => msg.conversationId = message.conversationId) =
      (log.find? (fun msg => msg.conversationId = message.conversationId)).map
        (replaceById message) := by
  rw [List.find?_map]
  have hfg : ((fun msg : ConversationMessage =>
        decide (msg.conversationId = message.conversationId)) ∘ replaceById message)
      = (fun msg : ConversationMessage =>
        decide (msg.conversationId = message.conversationId)) := by
    funext msg
    simp [Function.comp, replaceById_conversationId]
  rw [hfg]

theorem msgIds_upsertMessage (message : ConversationMessage)
    (log : List ConversationMessage) :
    msgIds (upsertMessage message log) =
      match log.find? (fun msg => msg.conversationId = message.conversationId) with
      | none => msgIds log ++ [message.conversationId]
      | some _ => msgIds log := by
  rw [upsertMessage_eq]
  cases h : log.find? (fun msg => msg.conversationId = message.conversationId) with
  | none => simp [msgIds]
  | some w =>
    simp only [msgIds, List.map_map]
    congr 1
    funext msg
    simp [Function.comp, replaceById_conversationId]

theorem upsertMessage_ids_nodup (message : ConversationMessage)
    (log : List ConversationMessage) (h : (msgIds log).Nodup) :
    (msgIds (upsertMessage message log)).Nodup := by
  rw [msgIds_upsertMessage]
  cases hf : log.find? (fun msg => msg.conversationId = message.conversationId) with
  | some w => exact h
  | none =>
    rw [List.nodup_append]
    refine ⟨h, List.nodup_singleton _, ?_⟩
    intro i hi
    simp only [List.mem_singleton]
    intro hc
    subst hc
    rw [List.find?_eq_none] at hf
    simp only [msgIds, List.mem_map] at hi
    obtain ⟨msg, hmsg, hid⟩ := hi
    exact hf msg hmsg (by simp [hid])

theorem upsertMessage_upsertMessage (message : ConversationMessage)
    (log : List ConversationMessage) :
    upsertMessage message (upsertMessage message log) =
      upsertMessage message log := by
  cases h : log.find? (fun msg => msg.conversationId = message.conversationId) with
  | some w =>
    have hfirst : upsertMessage message log = log.map (replaceById message) := by
      rw [upsertMessage_eq, h]
    rw [hfirst, upsertMessage_eq, find?_replaceById, h]
    simp only [Option.map_some, List.map_map]
    apply List.map_congr_left
    intro msg _
    exact replaceById_replaceById message msg
  | none =>
    have hfirst : upsertMessage message log = log ++ [message] := by
      rw [upsertMessage_eq, h]
    have hfind : (log ++ [message]).find?
        (fun msg => msg.conversationId = message.conversationId) = some message := by
      rw [List.find?_append, h]
      simp
    rw [hfirst, upsertMessage_eq, hfind]
    rw [List.map_append]
    have hmap : log.map (replaceById message) = log := by
      have : ∀ msg ∈ log, replaceById message msg = id msg := by
        intro msg hmsg
        rw [List.find?_eq_none] at h
        have hne : ¬ msg.conversationId = message.conversationId := by
          intro hc
          exact h msg hmsg (by simp [hc])
        simp [replaceById, hne]
      rw [List.map_congr_left this, List.map_id]
    rw [hmap]
    simp [replaceById]

theorem getConversationState_ids_nodup (a : ConvAgent) :
    (msgIds (getConversationState a).runningHistory).Nodup
      ∧ (msgIds (getConversationState a).fullHistory).Nodup :=
  ⟨(deduplicateMessagesGo_ids_nodup _ []).1,
   (deduplicateMessagesGo_ids_nodup _ []).1⟩

theorem addConversationMessage_def (a : ConvAgent)
    (message : ConversationMessage) :
    addConversationMessage a message =
      { a with
        compactConversations :=
          some (upsertMessage message (getConversationState a).runningHistory)
        fullConversations :=
          some (upsertMessage message (getConversationState a).fullHistory) } := rfl

theorem getConversationState_of_stored (full running : List ConversationMessage)
    (msgs : List ConversationMessage)
    (hfull : full ≠ []) (hrun : running ≠ [])
    (hfn : (msgIds full).Nodup) (hrn : (msgIds running).Nodup) :
    getConversationState ⟨some full, some running, msgs⟩ =
      { id := "default", runningHistory := running, fullHistory := full } := by
  have h1 : ¬ (full.isEmpty = true) := by simpa [List.isEmpty_iff] using hfull
  have h2 : ¬ (running.isEmpty = true) := by simpa [List.isEmpty_iff] using hrun
  simp only [getConversationState, Option.getD_some, if_neg h1, if_neg h2]
  rw [deduplicateMessages_eq_self full hfn,
      deduplicateMessages_eq_self running hrn]

theorem getConversationState_addConversationMessage (a : ConvAgent)
    (message : ConversationMessage) :
    getConversationState (addConversationMessage a message) =
      { id := "default"
        runningHistory :=
          upsertMessage message (getConversationState a).runningHistory
        fullHistory :=
          upsertMessage message (getConversationState a).fullHistory } := by
  rw [addConversationMessage_def]
  exact getConversationState_of_stored
    (upsertMessage message (getConversationState a).fullHistory)
    (upsertMessage message (getConversationState a).runningHistory)
    a.conversationMessages
    (upsertMessage_ne_nil _ _) (upsertMessage_ne_nil _ _)
    (upsertMessage_ids_nodup _ _ (getConversationState_ids_nodup a).2)
    (upsertMessage_ids_nodup _ _ (getConversationState_ids_nodup a).1)

theorem upsertMessage_of_mem (message : ConversationMessage)
    (log : List ConversationMessage)
    (h : message.conversationId ∈ msgIds log) :
    upsertMessage message log =
      log.map (fun msg =>
        if msg.conversationId = message.conversationId then message else msg) := by
  rw [upsertMessage_eq]
  cases hf : log.find? (fun msg => msg.conversationId = message.conversationId) with
  | some w => rfl
  | none =>
    exfalso
    rw [List.find?_eq_none] at hf
    simp only [msgIds, List.mem_map] at h
    obtain ⟨msg, hmsg, hid⟩ := h
    exact hf msg hmsg (by simp [hid])

theorem upsertMessage_of_not_mem (message : ConversationMessage)
    (log : List ConversationMessage)
    (h : message.conversationId ∉ msgIds log) :
    upsertMessage message log = log ++ [message] := by
  rw [upsertMessage_eq]
  cases hf : log.find? (fun msg => msg.conversationId = message.conversationId) with
  | none => rfl
  | some w =>
    exfalso
    apply h
    have hw := List.find?_some hf
    simp only [decide_eq_true_eq] at hw
    rw [← hw]
    simp only [msgIds, List.mem_map]
    exact ⟨w, List.mem_of_find?_eq_some hf, rfl⟩

theorem upsertMessage_length_of_mem (message : ConversationMessage)
    (log : List ConversationMessage)
    (h : message.conversationId ∈ msgIds log) :
    (upsertMessage message log).length = log.length := by
  rw [upsertMessage_of_mem message log h]
  simp

/-! # Claim theorems -/

/-- C5: adding a conversation message is idempotent per `conversationId` for
both logs — `addMessage(m); addMessage(m)` leaves exactly the state of a
single `addMessage(m)` — and after any add both stored logs have pairwise
distinct `conversationId`s.  When the id is already present in a
(deduplicated) log the add replaces that entry in place: the stored log is
the old log with every entry carrying the id replaced by the new message
(same position, all other entries untouched), so its length is unchanged;
when the id is absent the message is appended at the end. -/
theorem c5_addConversationMessage_idempotent_unique (a : ConvAgent)
    (message : ConversationMessage) :
    addConversationMessage (addConversationMessage a message) message
        = addConversationMessage a message
    ∧ (msgIds ((addConversationMessage a message).compactConversations.getD [])).Nodup
    ∧ (msgIds ((addConversationMessage a message).fullConversations.getD [])).Nodup
    ∧ (message.conversationId ∈ msgIds (getConversationState a).runningHistory →
        ((addConversationMessage a message).compactConversations.getD []).length
          = (getConversationState a).runningHistory.length)
    ∧ (message.conversationId ∈ msgIds (getConversationState a).fullHistory →
        ((addConversationMessage a message).fullConversations.getD []).length
          = (getConversationState a).fullHistory.length)
    ∧ (message.conversationId ∈ msgIds (getConversationState a).runningHistory →
        (addConversationMessage a message).compactConversations.getD []
          = (getConversationState a).runningHistory.map (fun msg =>
              if msg.conversationId = message.conversationId then message else msg))
    ∧ (message.conversationId ∈ msgIds (getConversationState a).fullHistory →
        (addConversationMessage a message).fullConversations.getD []
          = (getConversationState a).fullHistory.map (fun msg =>
              if msg.conversationId = message.conversationId then message else msg))
    ∧ (message.conversationId ∉ msgIds (getConversationState a).runningHistory →
        (addConversationMessage a message).compactConversations.getD []
          = (getConversationState a).runningHistory ++ [message])
    ∧ (message.conversationId ∉ msgIds (getConversationState a).fullHistory →
        (addConversationMessage a message).fullConversations.getD []
          = (getConversationState a).fullHistory ++ [message]) := by
  refine ⟨?_, ?_, ?_, ?_, ?_, ?_, ?_, ?_, ?_⟩
  · conv_lhs =>
      rw [addConversationMessage_def (addConversationMessage a message) message]
    rw [getConversationState_addConversationMessage]
    dsimp only
    rw [upsertMessage_upsertMessage, upsertMessage_upsertMessage]
    rw [addConversationMessage_def a message]
  · rw [addConversationMessage_def a message]
    exact upsertMessage_ids_nodup _ _ (getConversationState_ids_nodup a).1
  · rw [addConversationMessage_def a message]
    exact upsertMessage_ids_nodup _ _ (getConversationState_ids_nodup a).2
  · intro h
    rw [addConversationMessage_def a message]
    exact upsertMessage_length_of_mem _ _ h
  · intro h
    rw [addConversationMessage_def a message]
    exact upsertMessage_length_of_mem _ _ h
  · intro h
    rw [addConversationMessage_def a message]
    exact upsertMessage_of_mem _ _ h
  · intro h
    rw [addConversationMessage_def a message]
    exact upsertMessage_of_mem _ _ h
  · intro h
    rw [addConversationMessage_def a message]
    exact upsertMessage_of_not_mem _ _ h
  · intro h
    rw [addConversationMessage_def a message]
    exact upsertMessage_of_not_mem _ _ h

/-- Closed witness material for C5: `c5Agent` stores one message with id
"m1"; `c5MsgUpdate` carries the same id with different content, so the add
must replace in place; `c5MsgFresh` carries a new id, so the add must
append. -/
def c5Msg : ConversationMessage := ⟨"m1", "user", "hello"⟩

def c5MsgUpdate : ConversationMessage := ⟨"m1", "user", "hello again"⟩

def c5MsgFresh : ConversationMessage := ⟨"m2", "assistant", "reply"⟩

def c5Agent : ConvAgent := ⟨some [c5Msg], some [c5Msg], []⟩

theorem c5_addConversationMessage_witness :
    ((addConversationMessage c5Agent c5MsgUpdate).compactConversations.getD []).length
        = (getConversationState c5Agent).runningHistory.length
    ∧ ((addConversationMessage c5Agent c5MsgUpdate).fullConversations.getD []).length
        = (getConversationState c5Agent).fullHistory.length
    ∧ (addConversationMessage c5Agent c5MsgUpdate).compactConversations.getD []
        = (getConversationState c5Agent).runningHistory.map (fun msg =>
            if msg.conversationId = c5MsgUpdate.conversationId then c5MsgUpdate
            else msg)
    ∧ (addConversationMessage c5Agent c5MsgUpdate).compactConversations.getD []
        = [c5MsgUpdate]
    ∧ (addConversationMessage c5Agent c5MsgUpdate).fullConversations.getD []
        = (getConversationState c5Agent).fullHistory.map (fun msg =>
            if msg.conversationId = c5MsgUpdate.conversationId then c5MsgUpdate
            else msg)
    ∧ (addConversationMessage c5Agent c5MsgFresh).compactConversations.getD []
        = (getConversationState c5Agent).runningHistory ++ [c5MsgFresh]
    ∧ (addConversationMessage c5Agent c5MsgFresh).fullConversations.getD []
        = (getConversationState c5Agent).fullHistory ++ [c5MsgFresh] :=
  ⟨(c5_addConversationMessage_idempotent_unique c5Agent c5MsgUpdate).2.2.2.1
      (by decide),
   (c5_addConversationMessage_idempotent_unique c5Agent c5MsgUpdate).2.2.2.2.1
      (by decide),
   (c5_addConversationMessage_idempotent_unique c5Agent c5MsgUpdate).2.2.2.2.2.1
      (by decide),
   Eq.trans
     ((c5_addConversationMessage_idempotent_unique c5Agent c5MsgUpdate).2.2.2.2.2.1
       (by decide))
     (by decide),
   (c5_addConversationMessage_idempotent_unique c5Agent c5MsgUpdate).2.2.2.2.2.2.1
      (by decide),
   (c5_addConversationMessage_idempotent_unique c5Agent c5MsgFresh).2.2.2.2.2.2.2.1
      (by decide),
   (c5_addConversationMessage_idempotent_unique c5Agent c5MsgFresh).2.2.2.2.2.2.2.2
      (by decide)⟩

/-- Inputs for the C1 evaluation: three messages added through
`addConversationMessage` on a fresh agent (spec scenario: ids m1, m2, m3),
then `clear_conversation`, then `get_conversation_state`. -/
def c1M1 : ConversationMessage := ⟨"m1", "user", "first"⟩

def c1M2 : ConversationMessage := ⟨"m2", "assistant", "second"⟩

def c1M3 : ConversationMessage := ⟨"m3", "user", "third"⟩

def c1AgentAfterAdds : ConvAgent :=
  addConversationMessage
    (addConversationMessage (addConversationMessage ⟨none, none, []⟩ c1M1) c1M2)
    c1M3

/-- C1: evaluation of the code at the claim's scenario.  After adding
m1, m2, m3 and handling `clear_conversation`, the in-memory compact log is
empty and the full log is unchanged — but `get_conversation_state` returns
`running = [m1, m2, m3]`, not the empty running history the claim requires,
because `clearConversation` never touches the persisted
`compact_conversations` row that `getConversationState` reads. -/
theorem c1_clear_conversation_running_not_cleared :
    (getConversationState (clearConversation c1AgentAfterAdds).1).runningHistory
        = [c1M1, c1M2, c1M3]
    ∧ (getConversationState (clearConversation c1AgentAfterAdds).1).runningHistory ≠ []
    ∧ (getConversationState (clearConversation c1AgentAfterAdds).1).fullHistory
        = [c1M1, c1M2, c1M3]
    ∧ (getConversationState (clearConversation c1AgentAfterAdds).1).fullHistory
        = (getConversationState c1AgentAfterAdds).fullHistory
    ∧ ((clearConversation c1AgentAfterAdds).1).conversationMessages = [] := by
  decide

/-- Concrete agent with a deep-debug loop (promise id 0) still pending. -/
def dbgBusy : DeepDebugAgent :=
  { deepDebugPromise := some 0
    deepDebugConversationId := some "conv-0"
    lastDeepDebugTranscript := none
    nextPromiseId := 1
    startedLoops := [0] }

/-- C2: evaluation of `executeDeepDebug` while a previous deep-debug promise
is pending.  The call starts a second debugging loop (promise id 1) and
awaits that new promise instead of the pending one — there is no re-entry
guard in the source. -/
theorem c2_executeDeepDebug_reentry_starts_new_loop :
    isDeepDebugging dbgBusy = true
    ∧ (executeDeepDebug dbgBusy).1.startedLoops = [0, 1]
    ∧ (executeDeepDebug dbgBusy).1.startedLoops ≠ dbgBusy.startedLoops
    ∧ (executeDeepDebug dbgBusy).2 = 1
    ∧ (executeDeepDebug dbgBusy).2 ≠ 0 := by
  decide

/-- C6: cancelling twice is a no-op on the second call — after one cancel
the controller slot is empty, and an immediately following cancel leaves
the state unchanged, aborts no controller and reports `false`. -/
theorem c6_cancel_twice_noop (a : CancellationAgent) :
    (cancelCurrentInference a).1.currentAbortController = none
    ∧ cancelCurrentInference (cancelCurrentInference a).1
        = ((cancelCurrentInference a).1, false, []) := by
  cases h : a.currentAbortController <;>
    simp [cancelCurrentInference, h]

/-- C7: the `generate_all` frame always sets `shouldBeGenerating`; when a
generation is already in flight the frame changes nothing else and starts
no generation run; and the run's `finally` clears the flag exactly when no
generation is in progress at that point. -/
theorem c7_generate_all_flag_semantics (a b : GenAgent) :
    (handleGenerateAll a).1.shouldBeGenerating = true
    ∧ (a.generationPromise = true →
        handleGenerateAll a = ({ a with shouldBeGenerating := true }, false))
    ∧ (b.generationPromise = true → generationRunFinally b = b)
    ∧ (b.generationPromise = false →
        generationRunFinally b = { b with shouldBeGenerating := false }) := by
  refine ⟨?_, ?_, ?_, ?_⟩
  · unfold handleGenerateAll generateAllFiles
    dsimp only
    split
    · rfl
    · split
      · rfl
      · rfl
  · intro h
    unfold handleGenerateAll
    simp [h]
  · intro h
    unfold generationRunFinally
    simp [h]
  · intro h
    unfold generationRunFinally
    simp [h]

/-- Closed witness for C7, discharging each hypothesis at concrete states:
a frame arriving while a generation is in flight, a run settling while
another generation is active, and a run settling with none active. -/
theorem c7_generate_all_witness :
    handleGenerateAll ⟨false, true, false, 0⟩ = (⟨true, true, false, 0⟩, false)
    ∧ generationRunFinally ⟨true, true, false, 0⟩ = ⟨true, true, false, 0⟩
    ∧ generationRunFinally ⟨true, false, false, 0⟩ = ⟨false, false, false, 0⟩ :=
  ⟨(c7_generate_all_flag_semantics ⟨false, true, false, 0⟩
      ⟨false, true, false, 0⟩).2.1 rfl,
   (c7_generate_all_flag_semantics ⟨true, true, false, 0⟩
      ⟨true, true, false, 0⟩).2.2.1 rfl,
   (c7_generate_all_flag_semantics ⟨true, false, false, 0⟩
      ⟨true, false, false, 0⟩).2.2.2 rfl⟩

/-- C10: the cloned state agrees with the source state on every field
except exactly `sessionId` (the new agent id), `sandboxInstanceId`
(cleared), `pendingUserInputs` (emptied), `currentDevState` (reset to IDLE)
and `shouldBeGenerating` (false); in particular the generated-files map,
conversation messages, query and project name are carried over unchanged. -/
theorem c10_cloneAgent_state (s : CodeGenState) (newAgentId : String) :
    (cloneAgentState s newAgentId).sessionId = newAgentId
    ∧ (cloneAgentState s newAgentId).sandboxInstanceId = none
    ∧ (cloneAgentState s newAgentId).pendingUserInputs = []
    ∧ (cloneAgentState s newAgentId).currentDevState = CurrentDevState.IDLE
    ∧ (cloneAgentState s newAgentId).shouldBeGenerating = false
    ∧ (cloneAgentState s newAgentId).projectName = s.projectName
    ∧ (cloneAgentState s newAgentId).query = s.query
    ∧ (cloneAgentState s newAgentId).hostname = s.hostname
    ∧ (cloneAgentState s newAgentId).templateName = s.templateName
    ∧ (cloneAgentState s newAgentId).conversationMessages = s.conversationMessages
    ∧ (cloneAgentState s newAgentId).inferenceContext = s.inferenceContext
    ∧ (cloneAgentState s newAgentId).agentMode = s.agentMode
    ∧ (cloneAgentState s newAgentId).generatedFilesMap = s.generatedFilesMap
    ∧ (cloneAgentState s newAgentId).commandsHistory = s.commandsHistory
    ∧ (cloneAgentState s newAgentId).lastPackageJson = s.lastPackageJson
    ∧ (cloneAgentState s newAgentId).projectUpdatesAccumulator
        = s.projectUpdatesAccumulator
    ∧ (cloneAgentState s newAgentId).lastDeepDebugTranscript
        = s.lastDeepDebugTranscript
    ∧ (cloneAgentState s newAgentId).blueprint = s.blueprint
    ∧ (cloneAgentState s newAgentId).generatedPhases = s.generatedPhases
    ∧ (cloneAgentState s newAgentId).mvpGenerated = s.mvpGenerated
    ∧ (cloneAgentState s newAgentId).reviewingInitiated = s.reviewingInitiated
    ∧ (cloneAgentState s newAgentId).phasesCounter = s.phasesCounter
    ∧ (cloneAgentState s newAgentId).reviewCycles = s.reviewCycles
    ∧ (cloneAgentState s newAgentId).currentPhase = s.currentPhase := by
  refine ⟨rfl, rfl, rfl, rfl, rfl, rfl, rfl, rfl, rfl, rfl, rfl, rfl, rfl,
    rfl, rfl, rfl, rfl, rfl, rfl, rfl, rfl, rfl, rfl, rfl⟩

/-! # Record-merge lemmas (C4) -/

theorem lookupKey_nil (k : String) : lookupKey ([] : List (String × α)) k = none := rfl

theorem lookupKey_cons (kv : String × α) (rest : List (String × α)) (k : String) :
    lookupKey (kv :: rest) k =
      if kv.1 = k then some kv.2 else lookupKey rest k := by
  unfold lookupKey
  rw [List.find?_cons]
  by_cases h : kv.1 = k <;> simp [h]

theorem lookupKey_append (l₁ l₂ : List (String × α)) (k : String) :
    lookupKey (l₁ ++ l₂) k = (lookupKey l₁ k).or (lookupKey l₂ k) := by
  induction l₁ with
  | nil => simp [lookupKey_nil]
  | cons kv rest ih =>
    rw [List.cons_append, lookupKey_cons, lookupKey_cons]
    by_cases h : kv.1 = k <;> simp [h, ih]

theorem overrideWith_fst (b : List (String × α)) (kv : String × α) :
    (overrideWith b kv).1 = kv.1 := by
  unfold overrideWith
  cases lookupKey b kv.1 <;> rfl

theorem overrideWith_snd (b : List (String × α)) (kv : String × α) :
    (overrideWith b kv).2 = (lookupKey b kv.1).getD kv.2 := by
  unfold overrideWith
  cases lookupKey b kv.1 <;> rfl

theorem lookupKey_map_overrideWith (a b : List (String × α)) (k : String) :
    lookupKey (a.map (overrideWith b)) k =
      match lookupKey a k with
      | none => none
      | some v => some ((lookupKey b k).getD v) := by
  induction a with
  | nil => simp [lookupKey_nil]
  | cons kv rest ih =>
    rw [List.map_cons, lookupKey_cons, lookupKey_cons, overrideWith_fst]
    by_cases h : kv.1 = k
    · subst h
      rw [if_pos rfl, if_pos rfl, overrideWith_snd]
    · rw [if_neg h, if_neg h, ih]

theorem lookupKey_filter_of_none (a b : List (String × α)) (k : String)
    (h : lookupKey a k = none) :
    lookupKey (b.filter (fun kv => (lookupKey a kv.1).isNone)) k =
      lookupKey b k := by
  induction b with
  | nil => simp
  | cons kv rest ih =>
    rw [List.filter_cons]
    by_cases hk : kv.1 = k
    · have hkeep : (lookupKey a kv.1).isNone = true := by rw [hk, h]; rfl
      rw [if_pos hkeep, lookupKey_cons, lookupKey_cons, if_pos hk, if_pos hk]
    · by_cases hkeep : (lookupKey a kv.1).isNone = true
      · rw [if_pos hkeep, lookupKey_cons, lookupKey_cons, if_neg hk, if_neg hk, ih]
      · rw [if_neg hkeep, lookupKey_cons, if_neg hk, ih]

/-- Key lookup through the JS object spread: the update's value when the
key is present there, else the existing value. -/
theorem lookupKey_objSpread (a b : List (String × α)) (k : String) :
    lookupKey (objSpread a b) k = (lookupKey b k).or (lookupKey a k) := by
  unfold objSpread
  rw [lookupKey_append, lookupKey_map_overrideWith]
  cases ha : lookupKey a k with
  | some v =>
    cases hb : lookupKey b k <;> simp [hb]
  | none =>
    rw [lookupKey_filter_of_none a b k ha]
    cases hb : lookupKey b k <;> simp

/-- C4: `mergeMetadata` merges `params`, `envVars`, `secrets` and
`resources` key-by-key — for every key, the merged value is the update's
value when the update carries the key and the existing value otherwise, so
keys are never removed — while the scalar `name` and `description` take the
update's values. -/
theorem c4_mergeMetadata_key_rule (existing updates : WorkflowMetadata)
    (key : String) :
    (mergeMetadata existing updates).name = updates.name
    ∧ (mergeMetadata existing updates).description = updates.description
    ∧ lookupKey (mergeMetadata existing updates).params key
        = (lookupKey updates.params key).or (lookupKey existing.params key)
    ∧ lookupKey (envVarEntries (mergeMetadata existing updates).bindings) key
        = (lookupKey (envVarEntries updates.bindings) key).or
            (lookupKey (envVarEntries existing.bindings) key)
    ∧ lookupKey (secretEntries (mergeMetadata existing updates).bindings) key
        = (lookupKey (secretEntries updates.bindings) key).or
            (lookupKey (secretEntries existing.bindings) key)
    ∧ lookupKey (resourceEntries (mergeMetadata existing updates).bindings) key
        = (lookupKey (resourceEntries updates.bindings) key).or
            (lookupKey (resourceEntries existing.bindings) key) := by
  refine ⟨rfl, rfl, lookupKey_objSpread _ _ _, ?_, ?_, ?_⟩ <;>
    cases hub : updates.bindings with
  | none =>
    simp [mergeMetadata, hub, envVarEntries, secretEntries, resourceEntries,
      lookupKey_nil]
  | some ub =>
    simp [mergeMetadata, hub, envVarEntries, secretEntries, resourceEntries,
      lookupKey_objSpread]

/-! # Wrangler-section lemmas (C8) -/

def resourcesOfKind (kind : ResourceKind)
    (resources : List (String × ResourceConfig)) :
    List (String × ResourceConfig) :=
  resources.filter (fun kv => kv.2.type == kind)

theorem foldl_addResourceBinding_kv (l : List (String × ResourceConfig)) :
    ∀ cfg : WranglerConfig,
      (l.foldl (fun cfg kv => addResourceBinding cfg kv.1 kv.2) cfg).kv_namespaces
        = cfg.kv_namespaces ++ (resourcesOfKind .kv l).map
            (fun kv => { binding := kv.1,
                         id := "local-kv-" ++ sanitizeResourceName kv.1 }) := by
  induction l with
  | nil => intro cfg; simp [resourcesOfKind]
  | cons x rest ih =>
    intro cfg
    rw [List.foldl_cons, ih]
    cases hx : x.2.type <;>
      simp [addResourceBinding, hx, resourcesOfKind, List.filter_cons]

theorem foldl_addResourceBinding_r2 (l : List (String × ResourceConfig)) :
    ∀ cfg : WranglerConfig,
      (l.foldl (fun cfg kv => addResourceBinding cfg kv.1 kv.2) cfg).r2_buckets
        = cfg.r2_buckets ++ (resourcesOfKind .r2 l).map
            (fun kv => { binding := kv.1,
                         bucket_name := "local-r2-" ++ sanitizeResourceName kv.1 }) := by
  induction l with
  | nil => intro cfg; simp [resourcesOfKind]
  | cons x rest ih =>
    intro cfg
    rw [List.foldl_cons, ih]
    cases hx : x.2.type <;>
      simp [addResourceBinding, hx, resourcesOfKind, List.filter_cons]

theorem foldl_addResourceBinding_d1 (l : List (String × ResourceConfig)) :
    ∀ cfg : WranglerConfig,
      (l.foldl (fun cfg kv => addResourceBinding cfg kv.1 kv.2) cfg).d1_databases
        = cfg.d1_databases ++ (resourcesOfKind .d1 l).map
            (fun kv => { binding := kv.1,
                         database_name := "local-d1-" ++ sanitizeResourceName kv.1,
                         database_id := "local-d1-" ++ sanitizeResourceName kv.1 }) := by
  induction l with
  | nil => intro cfg; simp [resourcesOfKind]
  | cons x rest ih =>
    intro cfg
    rw [List.foldl_cons, ih]
    cases hx : x.2.type <;>
      simp [addResourceBinding, hx, resourcesOfKind, List.filter_cons]

theorem foldl_addResourceBinding_queue (l : List (String × ResourceConfig)) :
    ∀ cfg : WranglerConfig,
      (l.foldl (fun cfg kv => addResourceBinding cfg kv.1 kv.2) cfg).queues_producers
        = cfg.queues_producers ++ (resourcesOfKind .queue l).map
            (fun kv => { binding := kv.1,
                         queue := "local-queue-" ++ sanitizeResourceName kv.1 }) := by
  induction l with
  | nil => intro cfg; simp [resourcesOfKind]
  | cons x rest ih =>
    intro cfg
    rw [List.foldl_cons, ih]
    cases hx : x.2.type <;>
      simp [addResourceBinding, hx, resourcesOfKind, List.filter_cons]

theorem foldl_addResourceBinding_ai (l : List (String × ResourceConfig)) :
    ∀ cfg : WranglerConfig,
      (l.foldl (fun cfg kv => addResourceBinding cfg kv.1 kv.2) cfg).ai
        = ((l.reverse.find? (fun kv => kv.2.type == ResourceKind.ai)).map
            (fun kv => AiBinding.mk kv.1)).or cfg.ai := by
  induction l with
  | nil => intro cfg; simp
  | cons x rest ih =>
    intro cfg
    rw [List.foldl_cons, ih, List.reverse_cons, List.find?_append]
    cases hr : rest.reverse.find? (fun kv => kv.2.type == ResourceKind.ai) with
    | some w => simp
    | none =>
      cases hx : x.2.type <;>
        simp [addResourceBinding, hx]

/-- The claim's placement rule for a single declared resource, as stated:
an entry carrying the declared binding name in the wrangler section
determined by the kind (`kv_namespaces`, `r2_buckets`, `d1_databases`,
`queues.producers`) and, for kind `ai`, the `ai` binding itself. -/
def resourcePlacedAsClaimed (cfg : WranglerConfig) (name : String)
    (config : ResourceConfig) : Bool :=
  match config.type with
  | .kv => (cfg.kv_namespaces.map (fun e => e.binding)).contains name
  | .r2 => (cfg.r2_buckets.map (fun e => e.binding)).contains name
  | .d1 => (cfg.d1_databases.map (fun e => e.binding)).contains name
  | .queue => (cfg.queues_producers.map (fun e => e.binding)).contains name
  | .ai => cfg.ai == some { binding := name }

/-- C8 exactly as claimed: every declared resource is placed in the section
determined by its kind. -/
def c8ClaimHolds (workflowName workflowClassName : String)
    (metadata : WorkflowMetadata) : Prop :=
  ∀ kv ∈ resourceEntries metadata.bindings,
    resourcePlacedAsClaimed
      (buildWranglerConfig workflowName workflowClassName (some metadata))
      kv.1 kv.2 = true

/-- Metadata declaring two resources of kind `ai`. -/
def c8TwoAiMetadata : WorkflowMetadata :=
  { name := "Two AI bindings"
    description := "workflow declaring two ai resources"
    params := []
    bindings := some
      { envVars := none
        secrets := none
        resources := some
          [("AI_ONE", { type := .ai, description := "first Workers AI binding",
                        required := none }),
           ("AI_TWO", { type := .ai, description := "second Workers AI binding",
                        required := none })] } }

/-- C8 counterexample: with two declared `ai` resources the second
assignment to `wranglerConfig.ai` overwrites the first, so the resource
`AI_ONE` is not placed anywhere — the claim fails at this input. -/
theorem c8_resource_sections_counterexample :
    ¬ c8ClaimHolds "wf" "MyWorkflow" c8TwoAiMetadata
    ∧ (buildWranglerConfig "wf" "MyWorkflow" (some c8TwoAiMetadata)).ai
        = some { binding := "AI_TWO" } := by
  constructor
  · intro h
    have h1 := h ("AI_ONE",
      { type := .ai, description := "first Workers AI binding", required := none })
      (by decide)
    revert h1
    decide
  · decide

/-- C8 amended: each declared resource of kind `kv`, `r2`, `d1` or `queue`
yields exactly one entry, carrying its declared binding name, in the
corresponding wrangler section (in declaration order), while the single
`ai` binding carries the name of the **last** declared `ai` resource (so
every `ai` resource is placed as claimed only when at most one is
declared). -/
theorem c8_resource_sections_amended (workflowName workflowClassName : String)
    (metadata : WorkflowMetadata) :
    (buildWranglerConfig workflowName workflowClassName (some metadata)).kv_namespaces
        = (resourcesOfKind .kv (resourceEntries metadata.bindings)).map
            (fun kv => { binding := kv.1,
                         id := "local-kv-" ++ sanitizeResourceName kv.1 })
    ∧ (buildWranglerConfig workflowName workflowClassName (some metadata)).r2_buckets
        = (resourcesOfKind .r2 (resourceEntries metadata.bindings)).map
            (fun kv => { binding := kv.1,
                         bucket_name := "local-r2-" ++ sanitizeResourceName kv.1 })
    ∧ (buildWranglerConfig workflowName workflowClassName (some metadata)).d1_databases
        = (resourcesOfKind .d1 (resourceEntries metadata.bindings)).map
            (fun kv => { binding := kv.1,
                         database_name := "local-d1-" ++ sanitizeResourceName kv.1,
                         database_id := "local-d1-" ++ sanitizeResourceName kv.1 })
    ∧ (buildWranglerConfig workflowName workflowClassName (some metadata)).queues_producers
        = (resourcesOfKind .queue (resourceEntries metadata.bindings)).map
            (fun kv => { binding := kv.1,
                         queue := "local-queue-" ++ sanitizeResourceName kv.1 })
    ∧ (buildWranglerConfig workflowName workflowClassName (some metadata)).ai
        = ((resourceEntries metadata.bindings).reverse.find?
            (fun kv => kv.2.type == ResourceKind.ai)).map
            (fun kv => AiBinding.mk kv.1) := by
  cases hb : metadata.bindings with
  | none =>
    simp [buildWranglerConfig, resourceEntries, hb, resourcesOfKind]
  | some b =>
    simp only [buildWranglerConfig, resourceEntries, hb, Option.some_bind,
      Option.getD_some]
    refine ⟨?_, ?_, ?_, ?_, ?_⟩
    · rw [foldl_addResourceBinding_kv]; rfl
    · rw [foldl_addResourceBinding_r2]; rfl
    · rw [foldl_addResourceBinding_d1]; rfl
    · rw [foldl_addResourceBinding_queue]; rfl
    · rw [foldl_addResourceBinding_ai]; simp

/-! # Scaffold determinism (C9) -/

/-- C9: the scaffold provider is deterministic — it is a pure function of
its `{workflowName, workflowClassName, workflowCode?, metadata?}` input, so
two invocations on the same input return identical outputs (all files,
file tree, deps, important and dont-touch file lists). -/
theorem c9_scaffold_deterministic (x y : WorkflowScaffoldOptions)
    (h : x = y) :
    generateWorkflowScaffold x = generateWorkflowScaffold y :=
  congrArg generateWorkflowScaffold h

/-- A concrete scaffold input exercising code and metadata. -/
def c9SampleOptions : WorkflowScaffoldOptions :=
  { workflowName := "email-sender"
    workflowClassName := "EmailSender"
    workflowCode := some "export class EmailSender extends WorkflowEntrypoint<Env, Params> \x7b\x7d"
    metadata := some
      { name := "Email Sender"
        description := "Sends emails"
        params := [("to", { type := .string, description := "Recipient email",
                            exampleVal := none, required := true })]
        bindings := some
          { envVars :=
              some [("REGION",
                     { description := "Region", defaultVal := some "us-east",
                       required := none })]
            secrets :=
              some [("API_KEY",
                     { description := "Key", required := some true })]
            resources :=
              some [("EMAIL_CACHE",
                     { type := .kv, description := "Cache",
                       required := some false })] } } }

theorem c9_scaffold_deterministic_witness :
    c9SampleOptions = c9SampleOptions
    ∧ generateWorkflowScaffold c9SampleOptions
        = generateWorkflowScaffold c9SampleOptions :=
  ⟨rfl, c9_scaffold_deterministic c9SampleOptions c9SampleOptions rfl⟩

/-! # Deployment without credentials (C3) -/

def c3IdleState : WorkflowDeployState :=
  { deploymentUrl := none, deploymentStatus := .idle, deploymentError := none }

/-- C3 counterexample: on a session with no stored Cloudflare credentials,
handling `deploy` broadcasts nothing at all, so in particular no
`cloudflare_deployment_error` frame is sent — the claim's broadcast
expectation fails at this input (the state expectation does hold). -/
theorem c3_deploy_missing_credentials_counterexample :
    ¬ deployErrorBroadcastAsClaimed
        (deployToCloudflare c3IdleState none (.ok none none) []).2.1
        (deployToCloudflare c3IdleState none (.ok none none) []).1 := by
  intro h
  obtain ⟨⟨message, error, hmem, _⟩, _, _⟩ := h
  simp [deployToCloudflare] at hmem

/-- C3 amended: on a workflow session whose user has no stored Cloudflare
credentials, handling `deploy` leaves `deploymentStatus = 'failed'` and
`deploymentError` set to the message naming the missing credentials, and
returns null — but it broadcasts no event at all (the error is only logged
and recorded in state; no `cloudflare_deployment_error` frame is sent). -/
theorem c3_deploy_missing_credentials_amended (s : WorkflowDeployState)
    (manager : ManagerOutcome) (managerEvents : List DeployEvent) :
    (deployToCloudflare s none manager managerEvents).1.deploymentStatus
        = DeploymentStatus.failed
    ∧ (deployToCloudflare s none manager managerEvents).1.deploymentError
        = some missingCredentialsMsg
    ∧ (deployToCloudflare s none manager managerEvents).2.1 = []
    ∧ (deployToCloudflare s none manager managerEvents).2.2 = none := by
  simp [deployToCloudflare]

end VibeSdk
